import Mathlib

/-!
# BMP180 pressure-sensor handler

A shallow embedding of `libsensors/bmp180.c` (the BMP180 leaf driver of the
smdk4x12 sensors HAL) and the properties of its six handler operations.

Modelling conventions

* A C pointer that may be `NULL` is an `Option`; `none` is `NULL`.
* External calls (`calloc`, `free`, `input_open`, `close`, `sysfs_path_prefix`,
  `ssp_sensor_enable`, `ssp_sensor_disable`, `write_cmd`, `pthread_create`) are
  recorded in `World.trace`; the value each one returns is an argument of the
  embedded function.  Logging (`ALOGD`, `ALOGE`) is not modelled.
* `read` on the poll descriptor is a list of pending results; an exhausted list
  is a read that never returns, and `bmp180_get_data` then reports `rc = none`.
* A `float` is held as the exact rational value of the binary32 number.
  `bmp180_convert` rounds as the code does: the `int` is converted to binary32
  and the binary32 quotient by `100.0f` is taken, each rounded to nearest with
  ties to even.  No infinity or NaN arises from an `int` argument.
* The C `int mFlushed` is held as its 32-bit two's-complement bit pattern.
-/

namespace Bmp180

/-! ## Constants of the platform headers -/

/-- Value of `EINVAL` in `errno.h`. -/
def EINVAL : Int := 22

/-- Value of `EV_SYN` in `linux/input.h`. -/
def EV_SYN : Nat := 0

/-- Value of `EV_REL` in `linux/input.h`. -/
def EV_REL : Nat := 2

/-- Value of `SYN_REPORT` in `linux/input.h`. -/
def SYN_REPORT : Nat := 0

/-- Value of `REL_HWHEEL` in `linux/input.h`. -/
def REL_HWHEEL : Nat := 6

/-- Value of `SENSOR_TYPE_META_DATA` in `hardware/sensors.h`. -/
def SENSOR_TYPE_META_DATA : Nat := 0

/-- Value of `SENSOR_TYPE_PRESSURE` in `hardware/sensors.h`. -/
def SENSOR_TYPE_PRESSURE : Nat := 6

/-- Value of `META_DATA_FLUSH_COMPLETE` in `hardware/sensors.h`
(`enum { META_DATA_FLUSH_COMPLETE = 1, META_DATA_VERSION }`). -/
def META_DATA_FLUSH_COMPLETE : Int := 1

/-- Value of `META_DATA_VERSION` in `hardware/sensors.h` (the enumerator after
`META_DATA_FLUSH_COMPLETE`). -/
def META_DATA_VERSION : Int := 2

/-- Value of `PATH_MAX` in `linux/limits.h`. -/
def PATH_MAX : Nat := 4096

/-- Size in bytes of `struct input_event` on the 32-bit ARM target
(two 32-bit `timeval` fields, two `__u16`, one `__s32`). -/
def sizeof_input_event : Int := 16

/-- Size in bytes of `struct sensors_event_t` (`hardware/sensors.h`). -/
def sizeof_sensors_event_t : Int := 104

/-! ## Data model -/

/-- The kernel record `struct input_event`; `type` and `code` are `__u16` and
`value` is `__s32`. -/
structure input_event where
  tv_sec : Int
  tv_usec : Int
  type : Nat
  code : Nat
  value : Int
deriving DecidableEq, Repr

/-- The fields of `sensors_event_t` this driver touches.  `pressure` and
`meta_data` are views of the same union in C; the driver never reads one view
after writing the other, so they are kept as separate fields. -/
structure sensors_event_t where
  version : Int
  sensor : Int
  type : Int
  timestamp : Int
  pressure : ℚ
  meta_data_what : Int
  meta_data_sensor : Int
deriving DecidableEq

/-- The record left by `memset(&e, 0, sizeof(e))`. -/
def sensors_event_zero : sensors_event_t :=
  { version := 0, sensor := 0, type := 0, timestamp := 0, pressure := 0,
    meta_data_what := 0, meta_data_sensor := 0 }

/-- The driver-private state `struct bmp180_data`. -/
structure bmp180_data where
  path_delay : String
deriving DecidableEq, Repr

/-- A non-null `struct bmp180_data *`: the address returned by `calloc` and the
record stored there. -/
structure DataPtr where
  addr : Nat
  val : bmp180_data
deriving DecidableEq, Repr

/-- The data fields of `struct smdk4x12_sensors_handlers` (the six function
pointers are the functions below). -/
structure smdk4x12_sensors_handlers where
  name : String
  handle : Int
  activated : Int
  needed : Int
  poll_fd : Int
  data : Option DataPtr
deriving DecidableEq, Repr

/-- The static registration record `struct smdk4x12_sensors_handlers bmp180`. -/
def bmp180 : smdk4x12_sensors_handlers :=
  { name := "BMP180", handle := SENSOR_TYPE_PRESSURE, activated := 0, needed := 0,
    poll_fd := -1, data := none }

/-! ## Reading one event: `bmp180_convert` and `bmp180_get_data` -/

/-- The integer nearest to `a / b`, the even one of the two at a tie. -/
def round_half_even (a b : Nat) : Nat :=
  let k := a / b
  let r := a % b
  if 2 * r < b then k else if b < 2 * r then k + 1 else if k % 2 = 0 then k else k + 1

/-- Repeated halving: the number of times `n` can be halved before it drops
below 2, within `fuel` steps. -/
def log2_fuel : Nat → Nat → Nat
  | 0, _ => 0
  | fuel + 1, n => if 2 ≤ n then log2_fuel fuel (n / 2) + 1 else 0

/-- The floor of the binary logarithm of `n` (`0` for `n = 0`). -/
def floor_log2 (n : Nat) : Nat := log2_fuel n n

/-- Rounding to binary32, to nearest with ties to even.  A finite non-negative
binary32 number is a whole multiple of `2 ^ (-149)`, the smallest subnormal;
`binary32_units p q` is the binary32 number nearest to `p / q`, counted in those
units.  With `t` the whole units in `p / q`, the spacing of binary32 numbers
around `p / q` is one unit below `2 ^ 24` units (subnormals and the first normal
binade) and `2 ^ (floor_log2 t - 23)` units above, which leaves a 24-bit
significand.  Overflow to infinity (from `2 ^ 128` on) is not represented. -/
def binary32_units (p q : Nat) : Nat :=
  let t := p * 2 ^ 149 / q
  let s := if t < 2 ^ 24 then 0 else floor_log2 t - 23
  round_half_even (p * 2 ^ 149) (q * 2 ^ s) * 2 ^ s

/-- The value of a C `int` (32 bits, two's complement) given as an integer. -/
def s32 (v : Int) : Int := (v + 2 ^ 31) % 2 ^ 32 - 2 ^ 31

/-- The C function `bmp180_convert`: `value / 100.0f`.  The `int` argument is
converted to binary32 (`f`), divided by the binary32 constant `100.0f` with a
correctly rounded quotient (`g`), and the sign is that of the argument.  The
result is the exact rational value of the binary32 number returned. -/
def bmp180_convert (value : Int) : ℚ :=
  let x := s32 value
  let f := binary32_units x.natAbs 1
  let g := binary32_units f (100 * 2 ^ 149)
  (if x < 0 then -1 else 1) * (g : ℚ) / 2 ^ 149

/-- One result of `read(input_fd, &input_event, sizeof(input_event))`: the
byte count (or negative error) returned and the buffer contents afterwards. -/
structure ReadResult where
  rc : Int
  ev : input_event
deriving DecidableEq, Repr

/-- A read that delivers one whole record. -/
def fullRead (e : input_event) : ReadResult := { rc := sizeof_input_event, ev := e }

/-- The `do { ... } while (1)` loop of `bmp180_get_data`, run on the pending
read results.  It yields the return code decided inside the loop (`some 0` for
the two `break`s followed by `return 0`, `some (-1)` for the `return -1`,
`none` when the reads run out and the call stays blocked), the event record as
it then stands, and the results not yet consumed. -/
def get_data_loop (input_timestamp : input_event → Int) (event : sensors_event_t) :
    List ReadResult → Option Int × sensors_event_t × List ReadResult
  | [] => (none, event, [])
  | r :: rest =>
    if r.rc < sizeof_input_event then
      (some 0, event, rest)
    else if r.ev.type = EV_REL then
      if r.ev.code = REL_HWHEEL then
        get_data_loop input_timestamp
          { event with pressure := bmp180_convert r.ev.value } rest
      else
        get_data_loop input_timestamp event rest
    else if r.ev.type = EV_SYN then
      if r.ev.code = SYN_REPORT ∧ event.pressure ≠ 0 then
        (some 0, { event with timestamp := input_timestamp r.ev }, rest)
      else
        (some (-1), event, rest)
    else
      get_data_loop input_timestamp event rest

/-- The local `sensor_event` built in the flush branch of `bmp180_get_data`. -/
def flush_event (sensorId : Nat) : sensors_event_t :=
  { sensors_event_zero with
    version := META_DATA_VERSION
    type := SENSOR_TYPE_META_DATA
    meta_data_sensor := sensorId
    meta_data_what := 0 }

/-- What a call of `bmp180_get_data` leaves behind. -/
structure GetDataResult where
  /-- The value returned; `none` when the call is still blocked in `read`. -/
  rc : Option Int
  /-- The shared `mFlushed` after the call. -/
  mFlushed : Nat
  /-- The caller's event buffer after the call, slot by slot. -/
  buf : Option (Nat → sensors_event_t)
  /-- How many slots the local pointer `event` was advanced. -/
  cursor : Nat
  /-- The read results not consumed. -/
  stream : List ReadResult

/-- The C function `bmp180_get_data`.  `input_timestamp` is the helper of the
HAL core that turns a record's time stamp into nanoseconds. -/
def bmp180_get_data (input_timestamp : input_event → Int)
    (handlers : Option smdk4x12_sensors_handlers)
    (event : Option (Nat → sensors_event_t))
    (mFlushed : Nat) (stream : List ReadResult) : GetDataResult :=
  match handlers, event with
  | none, _ =>
    { rc := some (-EINVAL), mFlushed := mFlushed, buf := event, cursor := 0, stream := stream }
  | some _, none =>
    { rc := some (-EINVAL), mFlushed := mFlushed, buf := none, cursor := 0, stream := stream }
  | some h, some buf =>
    let sensorId := SENSOR_TYPE_PRESSURE
    let flush := mFlushed &&& (1 <<< sensorId) ≠ 0
    let buf1 := if flush then Function.update buf 0 (flush_event sensorId) else buf
    let cursor := if flush then 1 else 0
    let mFlushed1 := if flush then mFlushed &&& (0xFFFFFFFF ^^^ (0x01 <<< sensorId)) else mFlushed
    let input_fd := h.poll_fd
    if input_fd < 0 then
      { rc := some (-EINVAL), mFlushed := mFlushed1, buf := some buf1, cursor := cursor,
        stream := stream }
    else
      let event0 : sensors_event_t :=
        { sensors_event_zero with
          version := sizeof_sensors_event_t
          sensor := h.handle
          type := h.handle }
      let out := get_data_loop input_timestamp event0 stream
      { rc := out.1, mFlushed := mFlushed1, buf := some (Function.update buf1 cursor out.2.1),
        cursor := cursor, stream := out.2.2 }

/-! ### Vocabulary of the read claims -/

/-- A record that carries the pressure sample: `EV_REL` with code `REL_HWHEEL`. -/
def isHwheel (e : input_event) : Bool := e.type = EV_REL && e.code = REL_HWHEEL

/-- The value of the last `EV_REL`/`REL_HWHEEL` record of a run of records. -/
def lastHwheel (l : List input_event) : Option Int :=
  ((l.filter isHwheel).getLast?).map (fun e => e.value)

/-- The pressure accumulated by a run of records: the conversion of the last
`REL_HWHEEL` value, `0` when there is none. -/
def accumulated (l : List input_event) : ℚ :=
  match lastHwheel l with
  | some v => bmp180_convert v
  | none => 0

/-- The pressure field after a run of records, starting from the value `p0`. -/
def accumulatedFrom (p0 : ℚ) (l : List input_event) : ℚ :=
  match lastHwheel l with
  | some v => bmp180_convert v
  | none => p0

/-- The event record as stamped before the loop, for a given handle. -/
def stamped (handle : Int) : sensors_event_t :=
  { sensors_event_zero with
    version := sizeof_sensors_event_t
    sensor := handle
    type := handle }

/-- The slot the regular event goes to: `1` when the flush bit of this sensor
is set in `mFlushed`, `0` otherwise. -/
def regularSlot (mFlushed : Nat) : Nat :=
  if mFlushed &&& (1 <<< SENSOR_TYPE_PRESSURE) ≠ 0 then 1 else 0

/-! ## Resources and external calls -/

/-- The sensor identifiers of `ssp.h` that this driver passes on; the numeric
value of the enumerator plays no part here. -/
inductive ssp_sensor where
  | PRESSURE_SENSOR
deriving DecidableEq, Repr

/-- The start routines this driver hands to `pthread_create`. -/
inductive start_routine where
  | set_initial_state_fn
deriving DecidableEq, Repr

/-- One call leaving the driver. -/
inductive Call where
  | calloc (nmemb size : Nat)
  | free (addr : Nat)
  | input_open (name : String)
  | close (fd : Int)
  | sysfs_path_prefix_call (name : String)
  | ssp_sensor_enable (id : ssp_sensor)
  | ssp_sensor_disable (id : ssp_sensor)
  | write_cmd (path : String) (value : String) (len : Nat)
  | pthread_create_detached (fn : start_routine)
deriving DecidableEq, Repr

/-- The resources and the call history around the driver: the descriptors
that are open, the allocations that are live, and every call made so far. -/
structure World where
  open_fds : List Int
  live : List Nat
  trace : List Call
deriving DecidableEq, Repr

/-- Record a call that touches neither descriptors nor allocations. -/
def World.call (w : World) (c : Call) : World :=
  { w with trace := w.trace ++ [c] }

/-- The effect of `calloc(nmemb, size)` returning `result` (`none` is `NULL`). -/
def sys_calloc (result : Option Nat) (nmemb size : Nat) (w : World) : World :=
  { w with
    live := match result with
      | some p => p :: w.live
      | none => w.live
    trace := w.trace ++ [Call.calloc nmemb size] }

/-- The effect of `free(addr)`. -/
def sys_free (addr : Nat) (w : World) : World :=
  { w with live := w.live.erase addr, trace := w.trace ++ [Call.free addr] }

/-- The effect of `input_open(name)` returning `result`: a non-negative result
is a newly opened descriptor. -/
def sys_input_open (name : String) (result : Int) (w : World) : World :=
  { w with
    open_fds := if 0 ≤ result then result :: w.open_fds else w.open_fds
    trace := w.trace ++ [Call.input_open name] }

/-- The effect of `close(fd)`. -/
def sys_close (fd : Int) (w : World) : World :=
  { w with open_fds := w.open_fds.erase fd, trace := w.trace ++ [Call.close fd] }

/-! ## `bmp180_init` and `bmp180_deinit` -/

/-- What the external calls of `bmp180_init` return: the pointer from `calloc`,
the descriptor from `input_open`, and the status and path buffer left by
`sysfs_path_prefix`. -/
structure InitOracle where
  calloc_result : Option Nat
  input_open_result : Int
  sysfs_rc : Int
  sysfs_path : String
deriving DecidableEq, Repr

/-- The code after the label `error:` in `bmp180_init`. -/
def init_error (h : smdk4x12_sensors_handlers) (data : Option Nat) (input_fd : Int)
    (w : World) : Int × Option smdk4x12_sensors_handlers × World :=
  let w1 := match data with
    | some p => sys_free p w
    | none => w
  let w2 := if 0 ≤ input_fd then sys_close input_fd w1 else w1
  (-1, some { h with poll_fd := -1, data := none }, w2)

/-- The C function `bmp180_init`.  The result is `none` when the function
writes through the null pointer a failed `calloc` returned. -/
def bmp180_init (handlers : Option smdk4x12_sensors_handlers) (_device : Option Nat)
    (o : InitOracle) (w : World) : Option (Int × Option smdk4x12_sensors_handlers × World) :=
  match handlers with
  | none => some (-EINVAL, none, w)
  | some h =>
    let data := o.calloc_result
    let w1 := sys_calloc data 1 PATH_MAX w
    let input_fd := o.input_open_result
    let w2 := sys_input_open "pressure_sensor" input_fd w1
    if input_fd < 0 then
      some (init_error h data input_fd w2)
    else
      let w3 := w2.call (Call.sysfs_path_prefix_call "pressure_sensor")
      if o.sysfs_rc < 0 ∨ o.sysfs_path = "" then
        some (init_error h data input_fd w3)
      else
        match data with
        | none => none
        | some p =>
          let path_delay := (o.sysfs_path ++ "/poll_delay").take (PATH_MAX - 1)
          some (0, some { h with poll_fd := input_fd
                                 data := some { addr := p, val := { path_delay := path_delay } } },
                w3)

/-- The C function `bmp180_deinit`. -/
def bmp180_deinit (handlers : Option smdk4x12_sensors_handlers) (w : World) :
    Int × Option smdk4x12_sensors_handlers × World :=
  match handlers with
  | none => (-EINVAL, none, w)
  | some h =>
    let w1 := if 0 ≤ h.poll_fd then sys_close h.poll_fd w else w
    let w2 := match h.data with
      | some d => sys_free d.addr w1
      | none => w1
    (0, some { h with poll_fd := -1, data := none }, w2)

/-! ## `bmp180_activate`, `bmp180_deactivate`, `bmp180_set_delay` -/

/-- The C function `set_initial_state_thread`: one detached `pthread_create`
of `set_initial_state_fn`; its result is only logged. -/
def set_initial_state_thread (w : World) : World :=
  w.call (Call.pthread_create_detached start_routine.set_initial_state_fn)

/-- The C function `bmp180_activate`; `enable_rc` is what `ssp_sensor_enable`
returns. -/
def bmp180_activate (handlers : Option smdk4x12_sensors_handlers) (enable_rc : Int)
    (w : World) : Int × Option smdk4x12_sensors_handlers × World :=
  match handlers with
  | none => (-EINVAL, none, w)
  | some h =>
    match h.data with
    | none => (-EINVAL, some h, w)
    | some _ =>
      let w1 := w.call (Call.ssp_sensor_enable ssp_sensor.PRESSURE_SENSOR)
      if enable_rc < 0 then
        (-1, some h, w1)
      else
        (0, some { h with activated := 1 }, set_initial_state_thread w1)

/-- The C function `bmp180_deactivate`; `disable_rc` is what
`ssp_sensor_disable` returns. -/
def bmp180_deactivate (handlers : Option smdk4x12_sensors_handlers) (disable_rc : Int)
    (w : World) : Int × Option smdk4x12_sensors_handlers × World :=
  match handlers with
  | none => (-EINVAL, none, w)
  | some h =>
    match h.data with
    | none => (-EINVAL, some h, w)
    | some _ =>
      let w1 := w.call (Call.ssp_sensor_disable ssp_sensor.PRESSURE_SENSOR)
      if disable_rc < 0 then
        (-1, some h, w1)
      else
        (0, some { h with activated := 1 }, w1)

/-- The C function `bmp180_set_delay`; `write_rc` is what `write_cmd` returns. -/
def bmp180_set_delay (handlers : Option smdk4x12_sensors_handlers) (_delay : Int)
    (write_rc : Int) (w : World) : Int × Option smdk4x12_sensors_handlers × World :=
  match handlers with
  | none => (-EINVAL, none, w)
  | some h =>
    match h.data with
    | none => (-EINVAL, some h, w)
    | some _ =>
      let w1 := w.call
        (Call.write_cmd "/sys/devices/virtual/input/input6/pressure_poll_delay" "66667000" 9)
      if write_rc < 0 then
        (-1, some h, w1)
      else
        (0, some h, w1)

/-- The slot of the caller's buffer that holds the regular event after a call. -/
def GetDataResult.event (r : GetDataResult) : Option sensors_event_t :=
  r.buf.map (fun b => b r.cursor)

/-! ### Concrete inputs used to exercise the theorems -/

/-- A time-stamp helper in the usual style: seconds and microseconds to
nanoseconds. -/
def exTimestamp (e : input_event) : Int := e.tv_sec * 1000000000 + e.tv_usec * 1000

/-- The registration record with descriptor 3 open and private state present. -/
def exOpen : smdk4x12_sensors_handlers :=
  { bmp180 with
    poll_fd := 3
    data := some { addr := 4096, val := { path_delay := "/sys/class/input/input6/poll_delay" } } }

/-- A buffer whose slots are all zero. -/
def exBuf : Nat → sensors_event_t := fun _ => sensors_event_zero

/-- The record `REL_HWHEEL = v`. -/
def exHwheel (v : Int) : input_event :=
  { tv_sec := 7, tv_usec := 5, type := EV_REL, code := REL_HWHEEL, value := v }

/-- An `EV_SYN` record with the given code, stamped 7 s 9 us. -/
def exSyn (code : Nat) : input_event :=
  { tv_sec := 7, tv_usec := 9, type := EV_SYN, code := code, value := 0 }

/-- A buffer whose slots all hold the caller's stale contents. -/
def exJunk : Nat → sensors_event_t := fun _ =>
  { version := -1, sensor := -1, type := -1, timestamp := -1, pressure := -1,
    meta_data_what := -1, meta_data_sensor := -1 }

/-- A read that returns 0 bytes. -/
def exShort : ReadResult := { rc := 0, ev := exSyn SYN_REPORT }

/-- A world with the standard descriptors open and nothing allocated. -/
def exWorld : World := { open_fds := [0, 1, 2], live := [], trace := [] }

/-- The registration record with private state present and no descriptor. -/
def exReady : smdk4x12_sensors_handlers :=
  { bmp180 with
    data := some { addr := 4096, val := { path_delay := "/sys/class/sensors/ssp/poll_delay" } } }

/-- Running `bmp180_init` on a slot and then `bmp180_deinit` on the slot and
world it leaves: both return codes, the final slot and the final world. -/
def init_then_deinit (h : smdk4x12_sensors_handlers) (device : Option Nat) (o : InitOracle)
    (w : World) : Option (Int × Int × Option smdk4x12_sensors_handlers × World) :=
  (bmp180_init (some h) device o w).map fun r =>
    (r.1, (bmp180_deinit r.2.1 r.2.2).1, (bmp180_deinit r.2.1 r.2.2).2.1,
      (bmp180_deinit r.2.1 r.2.2).2.2)

/-! ## Helper lemmas -/

/-- One loop step on a whole record that is neither a sample nor `EV_SYN`. -/
theorem get_data_loop_skip (ts : input_event → Int) (ev : sensors_event_t) (e : input_event)
    (rest : List ReadResult) (hs : e.type ≠ EV_SYN) (hh : isHwheel e = false) :
    get_data_loop ts ev (fullRead e :: rest) = get_data_loop ts ev rest := by
  simp only [isHwheel, Bool.and_eq_false_imp, decide_eq_true_eq, decide_eq_false_iff_not] at hh
  by_cases h1 : e.type = EV_REL
  · have h2 := hh h1
    simp [get_data_loop, fullRead, h1, h2]
  · simp [get_data_loop, fullRead, h1, hs]

/-- One loop step on a whole sample record. -/
theorem get_data_loop_sample (ts : input_event → Int) (ev : sensors_event_t) (e : input_event)
    (rest : List ReadResult) (hh : isHwheel e = true) :
    get_data_loop ts ev (fullRead e :: rest)
      = get_data_loop ts { ev with pressure := bmp180_convert e.value } rest := by
  simp only [isHwheel, Bool.and_eq_true, decide_eq_true_eq] at hh
  simp [get_data_loop, fullRead, hh.1, hh.2]

/-- The last sample of a run with one more record in front. -/
theorem lastHwheel_cons (e : input_event) (l : List input_event) :
    lastHwheel (e :: l) =
      match lastHwheel l with
      | some v => some v
      | none => if isHwheel e then some e.value else none := by
  unfold lastHwheel
  by_cases he : isHwheel e = true
  · rw [List.filter_cons_of_pos he, List.getLast?_cons]
    cases hl : (List.filter isHwheel l).getLast? <;> simp [he]
  · rw [List.filter_cons_of_neg he]
    cases hl : (List.filter isHwheel l).getLast? <;> simp [he]

/-- The loop run over whole records none of which is `EV_SYN`: it consumes
them all and only the pressure field moves, to the accumulated sample. -/
theorem get_data_loop_run (ts : input_event → Int) (pre : List input_event) :
    ∀ (ev : sensors_event_t) (rest : List ReadResult), (∀ e ∈ pre, e.type ≠ EV_SYN) →
      get_data_loop ts ev (pre.map fullRead ++ rest)
        = get_data_loop ts { ev with pressure := accumulatedFrom ev.pressure pre } rest := by
  induction pre with
  | nil =>
    intro ev rest _
    simp [accumulatedFrom, lastHwheel]
  | cons e pre ih =>
    intro ev rest hpre
    have hs : e.type ≠ EV_SYN := hpre e (List.mem_cons_self e pre)
    have hpre2 : ∀ x ∈ pre, x.type ≠ EV_SYN := fun x hx => hpre x (List.mem_cons_of_mem e hx)
    rw [List.map_cons, List.cons_append]
    cases he : isHwheel e
    · rw [get_data_loop_skip ts ev e _ hs he, ih ev rest hpre2]
      congr 2
      simp only [accumulatedFrom, lastHwheel_cons e pre]
      cases lastHwheel pre <;> simp [he]
    · rw [get_data_loop_sample ts ev e _ he, ih _ rest hpre2]
      congr 2
      simp only [accumulatedFrom, lastHwheel_cons e pre]
      cases lastHwheel pre <;> simp [he]

/-- The loop on a whole `EV_SYN` record. -/
theorem get_data_loop_syn (ts : input_event → Int) (ev : sensors_event_t) (syn : input_event)
    (rest : List ReadResult) (hs : syn.type = EV_SYN) :
    get_data_loop ts ev (fullRead syn :: rest) =
      if syn.code = SYN_REPORT ∧ ev.pressure ≠ 0 then
        (some 0, { ev with timestamp := ts syn }, rest)
      else (some (-1), ev, rest) := by
  have h1 : ¬ EV_SYN = EV_REL := by decide
  simp [get_data_loop, fullRead, h1, hs]

/-- The loop on a short read. -/
theorem get_data_loop_short (ts : input_event → Int) (ev : sensors_event_t) (r : ReadResult)
    (rest : List ReadResult) (hr : r.rc < sizeof_input_event) :
    get_data_loop ts ev (r :: rest) = (some 0, ev, rest) := by
  simp [get_data_loop, hr]

set_option maxRecDepth 100000

/-- Rounding never goes below the integer quotient. -/
theorem round_half_even_ge (a b : Nat) : a / b ≤ round_half_even a b := by
  unfold round_half_even
  simp only
  split_ifs <;> omega

/-- With enough fuel the halving count brackets `n` between two powers of 2. -/
theorem log2_fuel_spec : ∀ (fuel n : Nat), n ≤ fuel → n ≠ 0 →
    2 ^ log2_fuel fuel n ≤ n ∧ n < 2 ^ (log2_fuel fuel n + 1) := by
  intro fuel
  induction fuel with
  | zero => intro n h0 h1; omega
  | succ fuel ih =>
    intro n hn h0
    unfold log2_fuel
    by_cases h2 : 2 ≤ n
    · have hh := ih (n / 2) (by omega) (by omega)
      simp only [h2, if_true]
      rw [pow_succ, pow_succ]
      rw [pow_succ] at hh
      constructor <;> omega
    · have h1 : n = 1 := by omega
      simp [h2, h1]

/-- The bracket `2 ^ floor_log2 n ≤ n < 2 ^ (floor_log2 n + 1)`. -/
theorem floor_log2_spec (n : Nat) (h0 : n ≠ 0) :
    2 ^ floor_log2 n ≤ n ∧ n < 2 ^ (floor_log2 n + 1) :=
  log2_fuel_spec n n (Nat.le_refl n) h0

/-- In the normal range (at least `2 ^ 24` units) the spacing is
`2 ^ (floor_log2 t - 23)`, the result is at least `2 ^ 23` units and more than
half of the whole units of the quotient. -/
theorem binary32_units_normal (p q : Nat) (ht : 2 ^ 24 ≤ p * 2 ^ 149 / q) :
    binary32_units p q
      = round_half_even (p * 2 ^ 149) (q * 2 ^ (floor_log2 (p * 2 ^ 149 / q) - 23))
          * 2 ^ (floor_log2 (p * 2 ^ 149 / q) - 23)
    ∧ 2 ^ 23 * 2 ^ (floor_log2 (p * 2 ^ 149 / q) - 23) ≤ p * 2 ^ 149 / q
    ∧ 2 ^ 23 ≤ binary32_units p q
    ∧ p * 2 ^ 149 / q < 2 * binary32_units p q := by
  have hnl : ¬ p * 2 ^ 149 / q < 2 ^ 24 := not_lt.mpr ht
  have hne : p * 2 ^ 149 / q ≠ 0 := by
    intro h; rw [h] at ht; exact absurd ht (by decide)
  have hspec := floor_log2_spec _ hne
  have hL : 24 ≤ floor_log2 (p * 2 ^ 149 / q) := by
    by_contra hc
    have h1 : floor_log2 (p * 2 ^ 149 / q) + 1 ≤ 24 := by omega
    have h2 : 2 ^ (floor_log2 (p * 2 ^ 149 / q) + 1) ≤ 2 ^ 24 :=
      Nat.pow_le_pow_right (by decide) h1
    omega
  have hpow : 2 ^ 23 * 2 ^ (floor_log2 (p * 2 ^ 149 / q) - 23)
      = 2 ^ floor_log2 (p * 2 ^ 149 / q) := by
    rw [← pow_add]; congr 1; omega
  have hdef : binary32_units p q
      = round_half_even (p * 2 ^ 149) (q * 2 ^ (floor_log2 (p * 2 ^ 149 / q) - 23))
          * 2 ^ (floor_log2 (p * 2 ^ 149 / q) - 23) := by
    simp only [binary32_units, hnl, if_false]
  have hs : 0 < 2 ^ (floor_log2 (p * 2 ^ 149 / q) - 23) := pow_pos (by decide) _
  have hdiv : 2 ^ 23 ≤ p * 2 ^ 149 / (q * 2 ^ (floor_log2 (p * 2 ^ 149 / q) - 23)) := by
    rw [← Nat.div_div_eq_div_mul, Nat.le_div_iff_mul_le hs, hpow]
    exact hspec.1
  have hr := round_half_even_ge (p * 2 ^ 149) (q * 2 ^ (floor_log2 (p * 2 ^ 149 / q) - 23))
  have hU : 2 ^ floor_log2 (p * 2 ^ 149 / q) ≤ binary32_units p q := by
    rw [hdef, ← hpow]
    exact Nat.mul_le_mul_right _ (le_trans hdiv hr)
  have h23 : 2 ^ 23 ≤ 2 ^ floor_log2 (p * 2 ^ 149 / q) := Nat.pow_le_pow_right (by decide) (by omega)
  refine ⟨hdef, by rw [hpow]; exact hspec.1, le_trans h23 hU, ?_⟩
  have h2 := hspec.2
  rw [pow_succ] at h2
  omega

/-- A quotient of at least one unit does not round to zero. -/
theorem binary32_units_pos (p q : Nat) (ht : 1 ≤ p * 2 ^ 149 / q) :
    1 ≤ binary32_units p q := by
  by_cases h : p * 2 ^ 149 / q < 2 ^ 24
  · have hr := round_half_even_ge (p * 2 ^ 149) q
    simp only [binary32_units, h, if_true, pow_zero, mul_one]
    omega
  · have := (binary32_units_normal p q (not_lt.mp h)).2.2.1
    omega

/-- An integer in the range of `int` is its own `int` value. -/
theorem s32_of_range (v : Int) (h1 : -2 ^ 31 ≤ v) (h2 : v < 2 ^ 31) : s32 v = v := by
  unfold s32
  omega

/-- The magnitude computed by `bmp180_convert` is non-zero on a non-zero `int`. -/
theorem convert_units_pos (x : Int) (hx : x ≠ 0) :
    1 ≤ binary32_units (binary32_units x.natAbs 1) (100 * 2 ^ 149) := by
  have hx1 : 1 ≤ x.natAbs := Nat.one_le_iff_ne_zero.mpr (Int.natAbs_ne_zero.mpr hx)
  have hf : 2 ^ 23 ≤ binary32_units x.natAbs 1 := by
    apply (binary32_units_normal _ 1 _).2.2.1
    rw [Nat.div_one]
    calc 2 ^ 24 ≤ 1 * 2 ^ 149 := by decide
      _ ≤ x.natAbs * 2 ^ 149 := Nat.mul_le_mul_right _ hx1
  apply binary32_units_pos _ _
  rw [Nat.mul_div_mul_right _ _ (by decide)]
  rw [Nat.le_div_iff_mul_le (by decide)]
  have : (1 : Nat) * 100 ≤ 2 ^ 23 := by decide
  omega

/-- The conversion of a non-zero `int` is non-zero. -/
theorem bmp180_convert_ne_zero (v : Int) (h1 : -2 ^ 31 ≤ v) (h2 : v < 2 ^ 31) (hv : v ≠ 0) :
    bmp180_convert v ≠ 0 := by
  have hs := s32_of_range v h1 h2
  have hg := convert_units_pos v hv
  unfold bmp180_convert
  simp only [hs]
  have hgq : (0 : ℚ) < (binary32_units (binary32_units v.natAbs 1) (100 * 2 ^ 149) : ℚ) := by
    exact_mod_cast hg
  have hp : (0 : ℚ) < 2 ^ 149 := by positivity
  split_ifs
  · have : (-1 : ℚ) * (binary32_units (binary32_units v.natAbs 1) (100 * 2 ^ 149) : ℚ) / 2 ^ 149 < 0 := by
      apply div_neg_of_neg_of_pos _ hp
      linarith
    exact ne_of_lt this
  · have : 0 < (1 : ℚ) * (binary32_units (binary32_units v.natAbs 1) (100 * 2 ^ 149) : ℚ) / 2 ^ 149 := by
      apply div_pos _ hp
      linarith
    exact ne_of_gt this

/-- Rounding to the nearest integer is off by at most one half. -/
theorem round_half_even_err (a b : Nat) (hb : 0 < b) :
    |(round_half_even a b : ℚ) * b - a| ≤ (b : ℚ) / 2 := by
  have hdm : (a : ℚ) = (b : ℚ) * ((a / b : Nat) : ℚ) + ((a % b : Nat) : ℚ) := by
    exact_mod_cast (Nat.div_add_mod a b).symm
  have hr0 : (0 : ℚ) ≤ ((a % b : Nat) : ℚ) := Nat.cast_nonneg _
  have hrb : ((a % b : Nat) : ℚ) < b := by exact_mod_cast Nat.mod_lt a hb
  unfold round_half_even
  simp only
  rw [abs_le]
  split_ifs with h1 h2 h3
  · have h1q : (2 : ℚ) * ((a % b : Nat) : ℚ) < b := by exact_mod_cast h1
    constructor <;> nlinarith
  · have h2q : (b : ℚ) < 2 * ((a % b : Nat) : ℚ) := by exact_mod_cast h2
    push_cast
    constructor <;> nlinarith
  · have he : (b : ℚ) = 2 * ((a % b : Nat) : ℚ) := by
      have : b = 2 * (a % b) := by omega
      exact_mod_cast this
    constructor <;> nlinarith
  · have he : (b : ℚ) = 2 * ((a % b : Nat) : ℚ) := by
      have : b = 2 * (a % b) := by omega
      exact_mod_cast this
    push_cast
    constructor <;> nlinarith

/-- In the normal range one rounding has relative error at most `2 ^ (-24)`. -/
theorem binary32_units_err (p q : Nat) (hq : 0 < q) (ht : 2 ^ 24 ≤ p * 2 ^ 149 / q) :
    |(binary32_units p q : ℚ) - ((p * 2 ^ 149 : Nat) : ℚ) / q|
      ≤ ((p * 2 ^ 149 : Nat) : ℚ) / q / 2 ^ 24 := by
  obtain ⟨hdef, hlow, -, -⟩ := binary32_units_normal p q ht
  have hqq : (0 : ℚ) < q := by exact_mod_cast hq
  have hS : (0 : ℚ) < ((2 ^ (floor_log2 (p * 2 ^ 149 / q) - 23) : Nat) : ℚ) := by
    exact_mod_cast (pow_pos (by decide) _ : 0 < 2 ^ (floor_log2 (p * 2 ^ 149 / q) - 23))
  have hE := round_half_even_err (p * 2 ^ 149) (q * 2 ^ (floor_log2 (p * 2 ^ 149 / q) - 23))
    (Nat.mul_pos hq (pow_pos (by decide) _))
  have hlowq : ((2 ^ 23 * 2 ^ (floor_log2 (p * 2 ^ 149 / q) - 23) : Nat) : ℚ)
      ≤ ((p * 2 ^ 149 : Nat) : ℚ) / q :=
    le_trans (by exact_mod_cast hlow) Nat.cast_div_le
  rw [hdef]
  generalize round_half_even (p * 2 ^ 149) (q * 2 ^ (floor_log2 (p * 2 ^ 149 / q) - 23)) = n
    at hE ⊢
  generalize hSdef : 2 ^ (floor_log2 (p * 2 ^ 149 / q) - 23) = S at hE hS hlowq ⊢
  generalize p * 2 ^ 149 = A at hE hlowq ⊢
  rw [Nat.cast_mul] at hE hlowq
  rw [Nat.cast_mul]
  have key : (n : ℚ) * S - (A : ℚ) / q = ((n : ℚ) * ((q : ℚ) * S) - A) / q := by
    field_simp
    ring
  rw [key, abs_div, abs_of_pos hqq, div_le_iff₀ hqq]
  have h1 : (A : ℚ) / q / 2 ^ 24 * q = (A : ℚ) / q * q / 2 ^ 24 := by ring
  have h2 : (A : ℚ) / q * q = A := div_mul_cancel₀ _ (ne_of_gt hqq)
  have h3 : ((2 ^ 23 : Nat) : ℚ) * S * q ≤ A := by
    have := mul_le_mul_of_nonneg_right hlowq (le_of_lt hqq)
    rwa [h2] at this
  rw [h1, h2]
  refine le_trans hE ?_
  push_cast at h3
  rw [le_div_iff₀ (by positivity)]
  have e : (q : ℚ) * S / 2 * 2 ^ 24 = 2 ^ 23 * S * q := by ring
  rw [e]
  exact h3

/-- The conversion of a non-zero `int` is within relative error `2 ^ (-22)` of
the exact quotient by 100. -/
theorem bmp180_convert_err (v : Int) (h1 : -2 ^ 31 ≤ v) (h2 : v < 2 ^ 31) (hv : v ≠ 0) :
    |bmp180_convert v - (v : ℚ) / 100| ≤ |(v : ℚ)| / 100 / 2 ^ 22 := by
  have hs := s32_of_range v h1 h2
  have hx1 : 1 ≤ v.natAbs := Nat.one_le_iff_ne_zero.mpr (Int.natAbs_ne_zero.mpr hv)
  have ht1 : 2 ^ 24 ≤ v.natAbs * 2 ^ 149 / 1 := by
    rw [Nat.div_one]
    calc 2 ^ 24 ≤ 1 * 2 ^ 149 := by decide
      _ ≤ v.natAbs * 2 ^ 149 := Nat.mul_le_mul_right _ hx1
  have hn1 := (binary32_units_normal v.natAbs 1 ht1).2.2.2
  have hE1 := binary32_units_err v.natAbs 1 (by decide) ht1
  have ht2 : 2 ^ 24 ≤ binary32_units v.natAbs 1 * 2 ^ 149 / (100 * 2 ^ 149) := by
    rw [Nat.mul_div_mul_right _ _ (by decide), Nat.le_div_iff_mul_le (by decide)]
    rw [Nat.div_one] at hn1
    have hb : 1 * 2 ^ 149 ≤ v.natAbs * 2 ^ 149 := Nat.mul_le_mul_right _ hx1
    have hc : 2 ^ 24 * 100 * 2 ≤ 1 * 2 ^ 149 := by decide
    omega
  have hE2 := binary32_units_err (binary32_units v.natAbs 1) (100 * 2 ^ 149) (by decide) ht2
  have hP : (0 : ℚ) < ((2 ^ 149 : Nat) : ℚ) := by
    exact_mod_cast (pow_pos (by decide) 149 : 0 < 2 ^ 149)
  have hXabs : ((v.natAbs : Nat) : ℚ) = |(v : ℚ)| := by
    rw [Nat.cast_natAbs, Int.cast_abs]
  have hX0 : (0 : ℚ) ≤ ((v.natAbs : Nat) : ℚ) := Nat.cast_nonneg _
  unfold bmp180_convert
  simp only [hs]
  rw [← hXabs]
  have hpow : ((2 : ℚ) ^ 149) = ((2 ^ 149 : Nat) : ℚ) := by norm_cast
  rw [hpow]
  simp only [Nat.cast_mul] at hE2
  simp only [Nat.cast_mul, Nat.cast_one, div_one] at hE1
  generalize ((binary32_units (binary32_units v.natAbs 1) (100 * 2 ^ 149) : Nat) : ℚ) = b
    at hE2 ⊢
  generalize ((binary32_units v.natAbs 1 : Nat) : ℚ) = a at hE1 hE2 ⊢
  generalize ((2 ^ 149 : Nat) : ℚ) = P at hE1 hE2 hP ⊢
  generalize hXd : ((v.natAbs : Nat) : ℚ) = X at hE1 hX0 hXabs ⊢
  have hq : a * P / (((100 : Nat) : ℚ) * P) = a / 100 := by
    rw [mul_div_mul_right _ _ (ne_of_gt hP)]
    norm_num
  rw [hq] at hE2
  rw [abs_le] at hE1 hE2
  have e24 : (2 : ℚ) ^ 24 = 16777216 := by norm_num
  have e22 : (2 : ℚ) ^ 22 = 4194304 := by norm_num
  rw [e24] at hE1 hE2
  rw [e22]
  have hXP : 0 ≤ X * P := mul_nonneg hX0 (le_of_lt hP)
  have hgoal : |b / P - X / 100| ≤ X / 100 / 4194304 := by
    have hk : b / P - X / 100 = (b - X * P / 100) / P := by
      field_simp
      ring
    rw [hk, abs_div, abs_of_pos hP, div_le_iff₀ hP, abs_le]
    have hr : X / 100 / 4194304 * P = X * P / 419430400 := by ring
    rw [hr]
    constructor <;> linarith [hE1.1, hE1.2, hE2.1, hE2.2]
  by_cases hneg : v < 0
  · have hvq : (v : ℚ) = -X := by
      have : (v : ℚ) < 0 := by exact_mod_cast hneg
      rw [hXabs, abs_of_neg this]; ring
    simp only [hneg, if_true, hvq]
    have hk : -1 * b / P - -X / 100 = -(b / P - X / 100) := by ring
    rw [hk, abs_neg]
    exact hgoal
  · have hvq : (v : ℚ) = X := by
      have : (0 : ℚ) ≤ (v : ℚ) := by exact_mod_cast not_lt.mp hneg
      rw [hXabs, abs_of_nonneg this]
    simp only [hneg, if_false, hvq, one_mul]
    exact hgoal

/-- The magnitude computed for the value 0. -/
theorem convert_units_zero :
    binary32_units (binary32_units (s32 0).natAbs 1) (100 * 2 ^ 149) = 0 := by
  decide

/-- The conversion of 0 is 0. -/
theorem bmp180_convert_zero : bmp180_convert 0 = 0 := by
  unfold bmp180_convert
  simp only [convert_units_zero]
  norm_num

/-- The magnitude computed for the value 12345: `8090419 * 2 ^ (-16)`. -/
theorem convert_units_12345 :
    binary32_units (binary32_units (s32 12345).natAbs 1) (100 * 2 ^ 149)
      = 8090419 * 2 ^ 133 := by
  decide

/-- The conversion of 12345 is `8090419 / 65536 = 123.4499969482421875`. -/
theorem bmp180_convert_12345 : bmp180_convert 12345 = 8090419 / 65536 := by
  have hs : ¬ s32 12345 < 0 := by decide
  unfold bmp180_convert
  simp only [convert_units_12345, hs, if_false]
  norm_num

/-- A call on an open handler with a buffer: the flush branch, then the
stamped record run through the loop. -/
theorem bmp180_get_data_open (ts : input_event → Int) (h : smdk4x12_sensors_handlers)
    (buf : Nat → sensors_event_t) (m : Nat) (stream : List ReadResult) (hopen : 0 ≤ h.poll_fd) :
    bmp180_get_data ts (some h) (some buf) m stream =
      { rc := (get_data_loop ts (stamped h.handle) stream).1
        mFlushed := if m &&& (1 <<< SENSOR_TYPE_PRESSURE) ≠ 0
          then m &&& (0xFFFFFFFF ^^^ (0x01 <<< SENSOR_TYPE_PRESSURE)) else m
        buf := some (Function.update
          (if m &&& (1 <<< SENSOR_TYPE_PRESSURE) ≠ 0
            then Function.update buf 0 (flush_event SENSOR_TYPE_PRESSURE) else buf)
          (regularSlot m) (get_data_loop ts (stamped h.handle) stream).2.1)
        cursor := regularSlot m
        stream := (get_data_loop ts (stamped h.handle) stream).2.2 } := by
  have hn : ¬ h.poll_fd < 0 := not_lt.mpr hopen
  simp only [bmp180_get_data, hn, if_false, stamped, regularSlot]

/-- The loop started on the stamped record, run over whole non-`EV_SYN`
records: what remains is the loop on the rest with the accumulated pressure. -/
theorem get_data_loop_stamped (ts : input_event → Int) (handle : Int) (pre : List input_event)
    (rest : List ReadResult) (hpre : ∀ e ∈ pre, e.type ≠ EV_SYN) :
    get_data_loop ts (stamped handle) (pre.map fullRead ++ rest)
      = get_data_loop ts { stamped handle with pressure := accumulated pre } rest := by
  rw [get_data_loop_run ts pre (stamped handle) rest hpre]
  congr 2

/-! ## The read claims -/

/-- A sample run ended by a report: on an open handler with the flush bit
clear, whole non-`EV_SYN` records whose last sample converts to a non-zero
pressure, followed by an `EV_SYN`/`SYN_REPORT` record. -/
theorem bmp180_get_data_sample_report (ts : input_event → Int) (h : smdk4x12_sensors_handlers)
    (buf : Nat → sensors_event_t) (m : Nat) (pre : List input_event) (syn : input_event)
    (rest : List ReadResult) (v : Int)
    (hopen : 0 ≤ h.poll_fd)
    (hflush : m &&& (1 <<< SENSOR_TYPE_PRESSURE) = 0)
    (hpre : ∀ e ∈ pre, e.type ≠ EV_SYN)
    (hsyn : syn.type = EV_SYN ∧ syn.code = SYN_REPORT)
    (hlast : lastHwheel pre = some v) (hne : bmp180_convert v ≠ 0) :
    bmp180_get_data ts (some h) (some buf) m (pre.map fullRead ++ fullRead syn :: rest)
      = { rc := some 0
          mFlushed := m
          buf := some (Function.update buf 0
            { version := sizeof_sensors_event_t, sensor := h.handle, type := h.handle,
              timestamp := ts syn, pressure := bmp180_convert v,
              meta_data_what := 0, meta_data_sensor := 0 })
          cursor := 0
          stream := rest } := by
  have hacc : accumulated pre = bmp180_convert v := by simp [accumulated, hlast]
  have hne2 : ¬ bmp180_convert v = 0 := hne
  rw [bmp180_get_data_open ts h buf m _ hopen, get_data_loop_stamped ts h.handle pre _ hpre,
    get_data_loop_syn ts _ syn rest hsyn.1]
  simp [regularSlot, hflush, hsyn.2, hacc, hne2, stamped, sensors_event_zero]

/-- C1 as stated fails at its own example: on the stream
`[REL_HWHEEL = 12345, SYN_REPORT]` the call returns 0 and the pressure left in
the event is the binary32 number `8090419 / 65536 = 123.4499969482421875`, which
is not `12345 / 100 = 123.45`. -/
theorem C1_sample_counterexample :
    (bmp180_get_data exTimestamp (some exOpen) (some exBuf) 0
        [fullRead (exHwheel 12345), fullRead (exSyn SYN_REPORT)]).rc = some 0
    ∧ (bmp180_get_data exTimestamp (some exOpen) (some exBuf) 0
        [fullRead (exHwheel 12345), fullRead (exSyn SYN_REPORT)]).event.map
          (fun e => e.pressure) = some (8090419 / 65536)
    ∧ (bmp180_get_data exTimestamp (some exOpen) (some exBuf) 0
        [fullRead (exHwheel 12345), fullRead (exSyn SYN_REPORT)]).event.map
          (fun e => e.pressure) ≠ some (((12345 : Int) : ℚ) / 100)
    ∧ (8090419 / 65536 : ℚ) ≠ 123.45 := by
  have hne : bmp180_convert 12345 ≠ 0 := by
    rw [bmp180_convert_12345]; norm_num
  have hrun := bmp180_get_data_sample_report exTimestamp exOpen exBuf 0 [exHwheel 12345]
    (exSyn SYN_REPORT) [] 12345 (by decide) (by decide) (by decide) (by decide) (by decide) hne
  have hrun2 : bmp180_get_data exTimestamp (some exOpen) (some exBuf) 0
      [fullRead (exHwheel 12345), fullRead (exSyn SYN_REPORT)] = _ := hrun
  rw [hrun2]
  refine ⟨rfl, ?_, ?_, by norm_num⟩
  · simp [GetDataResult.event, bmp180_convert_12345]
  · simp only [GetDataResult.event, Option.map_some', Function.update_same,
      bmp180_convert_12345]
    norm_num

/-- C1, amended: on an open handler with the flush bit clear, a stream of whole
non-`EV_SYN` records followed by one `EV_SYN`/`SYN_REPORT` record, where the last
`REL_HWHEEL` record carries a non-zero `int` value `v`, makes `bmp180_get_data`
return 0 and leave in slot 0 the stamped event with the time stamp of the report
record and pressure `bmp180_convert v`, the binary32 result of `v / 100.0f`:
a non-zero number within `|v| / 100 * 2 ^ (-22)` of `v / 100`.  The result
mentions only `v`, the handle and the report record, so the other records of the
stream do not change it. -/
theorem C1_sample_then_report (ts : input_event → Int) (h : smdk4x12_sensors_handlers)
    (buf : Nat → sensors_event_t) (m : Nat) (pre : List input_event) (syn : input_event)
    (rest : List ReadResult) (v : Int)
    (hopen : 0 ≤ h.poll_fd)
    (hflush : m &&& (1 <<< SENSOR_TYPE_PRESSURE) = 0)
    (hpre : ∀ e ∈ pre, e.type ≠ EV_SYN)
    (hsyn : syn.type = EV_SYN ∧ syn.code = SYN_REPORT)
    (hlast : lastHwheel pre = some v) (hv : v ≠ 0)
    (hrange : -2 ^ 31 ≤ v ∧ v < 2 ^ 31) :
    bmp180_get_data ts (some h) (some buf) m (pre.map fullRead ++ fullRead syn :: rest)
      = { rc := some 0
          mFlushed := m
          buf := some (Function.update buf 0
            { version := sizeof_sensors_event_t, sensor := h.handle, type := h.handle,
              timestamp := ts syn, pressure := bmp180_convert v,
              meta_data_what := 0, meta_data_sensor := 0 })
          cursor := 0
          stream := rest }
    ∧ bmp180_convert v ≠ 0
    ∧ |bmp180_convert v - (v : ℚ) / 100| ≤ |(v : ℚ)| / 100 / 2 ^ 22 :=
  ⟨bmp180_get_data_sample_report ts h buf m pre syn rest v hopen hflush hpre hsyn hlast
      (bmp180_convert_ne_zero v hrange.1 hrange.2 hv),
    bmp180_convert_ne_zero v hrange.1 hrange.2 hv,
    bmp180_convert_err v hrange.1 hrange.2 hv⟩

/-- C1 (amended) at the stream `[REL_HWHEEL = 12345, SYN_REPORT]`: the pressure
is `bmp180_convert 12345 = 8090419 / 65536`. -/
theorem C1_sample_then_report_witness :
    (bmp180_get_data exTimestamp (some exOpen) (some exBuf) 0
        ([exHwheel 12345].map fullRead ++ fullRead (exSyn SYN_REPORT) :: [])
      = { rc := some 0
          mFlushed := 0
          buf := some (Function.update exBuf 0
            { version := sizeof_sensors_event_t, sensor := exOpen.handle, type := exOpen.handle,
              timestamp := exTimestamp (exSyn SYN_REPORT), pressure := bmp180_convert 12345,
              meta_data_what := 0, meta_data_sensor := 0 })
          cursor := 0
          stream := [] }
      ∧ bmp180_convert 12345 ≠ 0
      ∧ |bmp180_convert 12345 - ((12345 : Int) : ℚ) / 100|
          ≤ |((12345 : Int) : ℚ)| / 100 / 2 ^ 22)
    ∧ bmp180_convert 12345 = 8090419 / 65536
    ∧ exTimestamp (exSyn SYN_REPORT) = 7000009000 :=
  ⟨C1_sample_then_report exTimestamp exOpen exBuf 0 [exHwheel 12345] (exSyn SYN_REPORT) [] 12345
      (by decide) (by decide) (by decide) (by decide) (by decide) (by decide)
      ⟨by decide, by decide⟩,
    bmp180_convert_12345, by decide⟩

/-- C2: on an open handler, when the first `EV_SYN` record arrives after whole
non-`EV_SYN` records that left the pressure at zero (no `REL_HWHEEL` record, or
the last one with value 0), `bmp180_get_data` returns -1 and the event it
leaves is the stamped record, with pressure 0 and time stamp 0. -/
theorem C2_report_without_sample (ts : input_event → Int) (h : smdk4x12_sensors_handlers)
    (buf : Nat → sensors_event_t) (m : Nat) (pre : List input_event) (syn : input_event)
    (rest : List ReadResult)
    (hopen : 0 ≤ h.poll_fd)
    (hpre : ∀ e ∈ pre, e.type ≠ EV_SYN)
    (hsyn : syn.type = EV_SYN)
    (hzero : lastHwheel pre = none ∨ lastHwheel pre = some 0) :
    (bmp180_get_data ts (some h) (some buf) m (pre.map fullRead ++ fullRead syn :: rest)).rc
      = some (-1)
    ∧ (bmp180_get_data ts (some h) (some buf) m (pre.map fullRead ++ fullRead syn :: rest)).event
      = some (stamped h.handle)
    ∧ (stamped h.handle).pressure = 0 ∧ (stamped h.handle).timestamp = 0
    ∧ (bmp180_get_data ts (some h) (some buf) m (pre.map fullRead ++ fullRead syn :: rest)).stream
      = rest := by
  have hacc : accumulated pre = 0 := by
    rcases hzero with h0 | h0 <;> simp [accumulated, h0, bmp180_convert_zero]
  rw [bmp180_get_data_open ts h buf m _ hopen, get_data_loop_stamped ts h.handle pre _ hpre,
    get_data_loop_syn ts _ syn rest hsyn]
  simp [GetDataResult.event, hacc, stamped, sensors_event_zero]

/-- C2 at the stream `[SYN_REPORT]`. -/
theorem C2_report_without_sample_witness :
    (bmp180_get_data exTimestamp (some exOpen) (some exBuf) 0
        (([] : List input_event).map fullRead ++ fullRead (exSyn SYN_REPORT) :: [])).rc
      = some (-1)
    ∧ (bmp180_get_data exTimestamp (some exOpen) (some exBuf) 0
        (([] : List input_event).map fullRead ++ fullRead (exSyn SYN_REPORT) :: [])).event
      = some (stamped exOpen.handle)
    ∧ (stamped exOpen.handle).pressure = 0 ∧ (stamped exOpen.handle).timestamp = 0
    ∧ (bmp180_get_data exTimestamp (some exOpen) (some exBuf) 0
        (([] : List input_event).map fullRead ++ fullRead (exSyn SYN_REPORT) :: [])).stream
      = [] :=
  C2_report_without_sample exTimestamp exOpen exBuf 0 [] (exSyn SYN_REPORT) []
    (by decide) (by decide) (by decide) (Or.inl (by decide))

/-- C3: on an open handler, whole records none of which is `EV_SYN`, followed
by a read that returns fewer bytes than one `input_event` (zero and negative
results included), make `bmp180_get_data` return 0; the event has version
`sizeof(struct sensors_event_t)`, sensor and type equal to the handle, time
stamp 0, and the pressure accumulated so far (0 when no sample was seen). -/
theorem C3_short_read (ts : input_event → Int) (h : smdk4x12_sensors_handlers)
    (buf : Nat → sensors_event_t) (m : Nat) (pre : List input_event) (r : ReadResult)
    (rest : List ReadResult)
    (hopen : 0 ≤ h.poll_fd)
    (hpre : ∀ e ∈ pre, e.type ≠ EV_SYN)
    (hshort : r.rc < sizeof_input_event) :
    (bmp180_get_data ts (some h) (some buf) m (pre.map fullRead ++ r :: rest)).rc = some 0
    ∧ (bmp180_get_data ts (some h) (some buf) m (pre.map fullRead ++ r :: rest)).event
      = some { version := sizeof_sensors_event_t, sensor := h.handle, type := h.handle,
               timestamp := 0, pressure := accumulated pre,
               meta_data_what := 0, meta_data_sensor := 0 }
    ∧ accumulated pre = (lastHwheel pre).elim 0 bmp180_convert
    ∧ (bmp180_get_data ts (some h) (some buf) m (pre.map fullRead ++ r :: rest)).stream
      = rest := by
  rw [bmp180_get_data_open ts h buf m _ hopen, get_data_loop_stamped ts h.handle pre _ hpre,
    get_data_loop_short ts _ r rest hshort]
  refine ⟨rfl, ?_, ?_, rfl⟩
  · simp [GetDataResult.event, stamped, sensors_event_zero]
  · unfold accumulated
    cases lastHwheel pre <;> rfl

/-- C3 at the stream `[REL_HWHEEL = 12345]` followed by a read returning 0. -/
theorem C3_short_read_witness :
    (bmp180_get_data exTimestamp (some exOpen) (some exBuf) 0
        ([exHwheel 12345].map fullRead ++ { rc := 0, ev := exSyn SYN_REPORT } :: [])).rc = some 0
    ∧ (bmp180_get_data exTimestamp (some exOpen) (some exBuf) 0
        ([exHwheel 12345].map fullRead ++ { rc := 0, ev := exSyn SYN_REPORT } :: [])).event
      = some { version := sizeof_sensors_event_t, sensor := exOpen.handle, type := exOpen.handle,
               timestamp := 0, pressure := accumulated [exHwheel 12345],
               meta_data_what := 0, meta_data_sensor := 0 }
    ∧ accumulated [exHwheel 12345] = (lastHwheel [exHwheel 12345]).elim 0 bmp180_convert
    ∧ (bmp180_get_data exTimestamp (some exOpen) (some exBuf) 0
        ([exHwheel 12345].map fullRead ++ { rc := 0, ev := exSyn SYN_REPORT } :: [])).stream
      = [] :=
  C3_short_read exTimestamp exOpen exBuf 0 [exHwheel 12345] { rc := 0, ev := exSyn SYN_REPORT } []
    (by decide) (by decide) (by decide)

/-- C10: on an open handler, when the first `EV_SYN` record (after whole
non-`EV_SYN` records) has a code other than `SYN_REPORT`, `bmp180_get_data`
returns -1 whatever pressure was accumulated and leaves the time stamp 0; the
call returns 0 at a first `EV_SYN` record exactly when its code is `SYN_REPORT`
and the accumulated pressure is non-zero, and returns -1 otherwise. -/
theorem C10_syn_other_code (ts : input_event → Int) (h : smdk4x12_sensors_handlers)
    (buf : Nat → sensors_event_t) (m : Nat) (pre : List input_event) (syn : input_event)
    (rest : List ReadResult)
    (hopen : 0 ≤ h.poll_fd)
    (hpre : ∀ e ∈ pre, e.type ≠ EV_SYN)
    (hsyn : syn.type = EV_SYN) :
    (syn.code ≠ SYN_REPORT →
      (bmp180_get_data ts (some h) (some buf) m (pre.map fullRead ++ fullRead syn :: rest)).rc
        = some (-1)
      ∧ (bmp180_get_data ts (some h) (some buf) m (pre.map fullRead ++ fullRead syn :: rest)).event
        = some { version := sizeof_sensors_event_t, sensor := h.handle, type := h.handle,
                 timestamp := 0, pressure := accumulated pre,
                 meta_data_what := 0, meta_data_sensor := 0 })
    ∧ ((bmp180_get_data ts (some h) (some buf) m (pre.map fullRead ++ fullRead syn :: rest)).rc
        = some 0 ↔ syn.code = SYN_REPORT ∧ accumulated pre ≠ 0)
    ∧ ((bmp180_get_data ts (some h) (some buf) m (pre.map fullRead ++ fullRead syn :: rest)).rc
        = some (-1) ↔ ¬ (syn.code = SYN_REPORT ∧ accumulated pre ≠ 0)) := by
  rw [bmp180_get_data_open ts h buf m _ hopen, get_data_loop_stamped ts h.handle pre _ hpre,
    get_data_loop_syn ts _ syn rest hsyn]
  refine ⟨?_, ?_, ?_⟩
  · intro hc
    simp [GetDataResult.event, hc, stamped, sensors_event_zero]
  · by_cases hc : syn.code = SYN_REPORT ∧ accumulated pre ≠ 0
    · simp [hc]
    · have hc2 : ¬ (syn.code = SYN_REPORT ∧ ¬ accumulated pre = 0) := hc
      simp [hc2]
  · by_cases hc : syn.code = SYN_REPORT ∧ accumulated pre ≠ 0
    · simp [hc]
    · have hc2 : ¬ (syn.code = SYN_REPORT ∧ ¬ accumulated pre = 0) := hc
      simp [hc2]

/-- C10 at the stream `[REL_HWHEEL = 12345, EV_SYN with code 1]`: a non-zero
pressure is accumulated and the call still returns -1 with time stamp 0. -/
theorem C10_syn_other_code_witness :
    ((bmp180_get_data exTimestamp (some exOpen) (some exBuf) 0
          ([exHwheel 12345].map fullRead ++ fullRead (exSyn 1) :: [])).rc = some (-1)
      ∧ (bmp180_get_data exTimestamp (some exOpen) (some exBuf) 0
          ([exHwheel 12345].map fullRead ++ fullRead (exSyn 1) :: [])).event
        = some { version := sizeof_sensors_event_t, sensor := exOpen.handle,
                 type := exOpen.handle, timestamp := 0,
                 pressure := accumulated [exHwheel 12345],
                 meta_data_what := 0, meta_data_sensor := 0 })
    ∧ accumulated [exHwheel 12345] = 8090419 / 65536 :=
  ⟨(C10_syn_other_code exTimestamp exOpen exBuf 0 [exHwheel 12345] (exSyn 1) []
      (by decide) (by decide) (by decide)).1 (by decide),
    by
      have hl : lastHwheel [exHwheel 12345] = some 12345 := by decide
      simp only [accumulated, hl, bmp180_convert_12345]⟩

/-! ## The flush branch -/

/-- A call on a handler whose descriptor is not open: the flush branch, then
`-EINVAL`, with nothing read and no regular event written. -/
theorem bmp180_get_data_closed (ts : input_event → Int) (h : smdk4x12_sensors_handlers)
    (buf : Nat → sensors_event_t) (m : Nat) (stream : List ReadResult) (hclosed : h.poll_fd < 0) :
    bmp180_get_data ts (some h) (some buf) m stream =
      { rc := some (-EINVAL)
        mFlushed := if m &&& (1 <<< SENSOR_TYPE_PRESSURE) ≠ 0
          then m &&& (0xFFFFFFFF ^^^ (0x01 <<< SENSOR_TYPE_PRESSURE)) else m
        buf := some (if m &&& (1 <<< SENSOR_TYPE_PRESSURE) ≠ 0
            then Function.update buf 0 (flush_event SENSOR_TYPE_PRESSURE) else buf)
        cursor := regularSlot m
        stream := stream } := by
  simp only [bmp180_get_data, hclosed, if_true, regularSlot]

/-- The loop writes only the pressure and the time stamp of the record. -/
theorem get_data_loop_fields (ts : input_event → Int) (l : List ReadResult) :
    ∀ ev : sensors_event_t,
      (get_data_loop ts ev l).2.1.version = ev.version
      ∧ (get_data_loop ts ev l).2.1.sensor = ev.sensor
      ∧ (get_data_loop ts ev l).2.1.type = ev.type := by
  induction l with
  | nil => intro ev; simp [get_data_loop]
  | cons r rest ih =>
    intro ev
    unfold get_data_loop
    split
    · simp
    · split
      · split
        · exact ih _
        · exact ih _
      · split
        · split
          · simp
          · simp
        · exact ih _

/-- Bits of `mFlushed` after `mFlushed &= ~(0x01 << sensorId)` on a 32-bit pattern. -/
theorem clear_flush_bit_testBit (m : Nat) (hm : m < 2 ^ 32) (i : Nat) :
    (m &&& (0xFFFFFFFF ^^^ (0x01 <<< SENSOR_TYPE_PRESSURE))).testBit i
      = (m.testBit i && decide (i ≠ SENSOR_TYPE_PRESSURE)) := by
  have hmask : (0xFFFFFFFF ^^^ (0x01 <<< SENSOR_TYPE_PRESSURE)) = 2 ^ 32 - (2 ^ 6 + 1) := by decide
  have h64 : (2 : Nat) ^ 6 < 2 ^ 32 := by decide
  rw [hmask, Nat.testBit_and, Nat.testBit_two_pow_sub_succ h64, Nat.testBit_two_pow]
  by_cases hi : i < 32
  · by_cases h6 : 6 = i
    · subst h6; simp [SENSOR_TYPE_PRESSURE]
    · have h6b : ¬ i = 6 := fun e => h6 e.symm
      simp [hi, h6, h6b, SENSOR_TYPE_PRESSURE]
  · have hge : 2 ^ 32 ≤ 2 ^ i := Nat.pow_le_pow_right (by decide) (not_lt.mp hi)
    have hf : m.testBit i = false := Nat.testBit_lt_two_pow (lt_of_lt_of_le hm hge)
    simp [hf]

/-- After the bit is cleared the flush test fails. -/
theorem clear_flush_bit_test (m : Nat) :
    (m &&& (0xFFFFFFFF ^^^ (0x01 <<< SENSOR_TYPE_PRESSURE))) &&& (1 <<< SENSOR_TYPE_PRESSURE)
      = 0 := by
  have h0 : (0xFFFFFFFF ^^^ (0x01 <<< SENSOR_TYPE_PRESSURE)) &&& (1 <<< SENSOR_TYPE_PRESSURE)
      = 0 := by decide
  rw [Nat.and_assoc, h0, Nat.and_zero]

/-- C4 as stated fails at two places.  On the registration record as declared
(descriptor not open) with only the flush bit set, the call returns `-EINVAL`
after the meta-data event and slot 1 keeps the caller's stale contents: no
regular event is written.  And on an open handler the `what` field written is
`0`, which is not `META_DATA_FLUSH_COMPLETE`. -/
theorem C4_flush_counterexample :
    (bmp180_get_data exTimestamp (some bmp180) (some exJunk) 64 [exShort]).rc = some (-22)
    ∧ (bmp180_get_data exTimestamp (some bmp180) (some exJunk) 64 [exShort]).buf.map
        (fun b => b 1) = some (exJunk 1)
    ∧ (bmp180_get_data exTimestamp (some bmp180) (some exJunk) 64 [exShort]).buf.map
        (fun b => (b 1).version) ≠ some sizeof_sensors_event_t
    ∧ (bmp180_get_data exTimestamp (some exOpen) (some exJunk) 64 [exShort]).buf.map
        (fun b => (b 0).meta_data_what) = some 0
    ∧ (bmp180_get_data exTimestamp (some exOpen) (some exJunk) 64 [exShort]).buf.map
        (fun b => (b 0).meta_data_what) ≠ some META_DATA_FLUSH_COMPLETE := by
  refine ⟨?_, ?_, ?_, ?_, ?_⟩
  · rw [bmp180_get_data_closed _ _ _ _ _ (by decide)]; rfl
  · rw [bmp180_get_data_closed _ _ _ _ _ (by decide)]; rfl
  · rw [bmp180_get_data_closed _ _ _ _ _ (by decide)]; decide
  · rw [bmp180_get_data_open _ _ _ _ _ (by decide)]; rfl
  · rw [bmp180_get_data_open _ _ _ _ _ (by decide)]; decide

/-- C4, amended: for every 32-bit `mFlushed` with the bit of
`SENSOR_TYPE_PRESSURE` set, a call with a handler and an event buffer advances
the cursor by one slot, leaves in slot 0 an event of type
`SENSOR_TYPE_META_DATA`, version `META_DATA_VERSION` and `meta_data.sensor =
SENSOR_TYPE_PRESSURE`, clears exactly that bit of `mFlushed`, and touches no slot
from 2 on.  With the descriptor open the regular event is stamped into slot 1;
with the descriptor not open the call returns `-EINVAL`, slot 1 is untouched
and nothing is read.  A second call on the state left behind does not advance
the cursor, leaves `mFlushed` as it is and touches no slot from 1 on. -/
theorem C4_flush_complete (ts : input_event → Int) (h : smdk4x12_sensors_handlers)
    (buf : Nat → sensors_event_t) (m : Nat) (stream : List ReadResult)
    (r r2 : GetDataResult)
    (hm : m < 2 ^ 32)
    (hbit : m &&& (1 <<< SENSOR_TYPE_PRESSURE) ≠ 0)
    (hr : r = bmp180_get_data ts (some h) (some buf) m stream)
    (hr2 : r2 = bmp180_get_data ts (some h) r.buf r.mFlushed r.stream) :
    r.cursor = 1
    ∧ r.buf.map (fun b => ((b 0).type, (b 0).version, (b 0).meta_data_sensor))
        = some ((SENSOR_TYPE_META_DATA : Int), META_DATA_VERSION, (SENSOR_TYPE_PRESSURE : Int))
    ∧ (∀ i, r.mFlushed.testBit i = (m.testBit i && decide (i ≠ SENSOR_TYPE_PRESSURE)))
    ∧ (∀ i, 2 ≤ i → r.buf.map (fun b => b i) = some (buf i))
    ∧ (0 ≤ h.poll_fd →
        r.buf.map (fun b => ((b 1).version, (b 1).sensor, (b 1).type))
          = some (sizeof_sensors_event_t, h.handle, h.handle))
    ∧ (h.poll_fd < 0 →
        r.rc = some (-EINVAL) ∧ r.buf.map (fun b => b 1) = some (buf 1) ∧ r.stream = stream)
    ∧ r2.cursor = 0
    ∧ r2.mFlushed = r.mFlushed
    ∧ (∀ i, 1 ≤ i → r2.buf.map (fun b => b i) = r.buf.map (fun b => b i)) := by
  have hclr := clear_flush_bit_test m
  by_cases hopen : 0 ≤ h.poll_fd
  · have hnc : ¬ h.poll_fd < 0 := not_lt.mpr hopen
    rw [bmp180_get_data_open ts h buf m stream hopen] at hr
    simp only [hbit, regularSlot, ne_eq, not_false_eq_true, if_true] at hr
    subst hr
    simp only at hr2
    rw [bmp180_get_data_open ts h _ _ _ hopen] at hr2
    simp only [hclr, regularSlot, ne_eq, not_true_eq_false, if_false] at hr2
    subst hr2
    have hf := get_data_loop_fields ts stream (stamped h.handle)
    refine ⟨rfl, ?_, ?_, ?_, ?_, ?_, rfl, rfl, ?_⟩
    · simp [flush_event, sensors_event_zero]
    · intro i; exact clear_flush_bit_testBit m hm i
    · intro i hi
      have h0 : i ≠ 0 := by omega
      have h1 : i ≠ 1 := by omega
      simp [Function.update, h0, h1]
    · intro _
      simp only [Option.map_some', Function.update_same, hf.1, hf.2.1, hf.2.2]
      rfl
    · intro hc; exact absurd hc hnc
    · intro i hi
      have h0 : i ≠ 0 := by omega
      simp [Function.update, h0]
  · have hc : h.poll_fd < 0 := not_le.mp hopen
    rw [bmp180_get_data_closed ts h buf m stream hc] at hr
    simp only [hbit, regularSlot, ne_eq, not_false_eq_true, if_true] at hr
    subst hr
    simp only at hr2
    rw [bmp180_get_data_closed ts h _ _ _ hc] at hr2
    simp only [hclr, regularSlot, ne_eq, not_true_eq_false, if_false] at hr2
    subst hr2
    refine ⟨rfl, ?_, ?_, ?_, ?_, ?_, rfl, rfl, ?_⟩
    · simp [flush_event, sensors_event_zero]
    · intro i; exact clear_flush_bit_testBit m hm i
    · intro i hi
      have h0 : i ≠ 0 := by omega
      simp [Function.update, h0]
    · intro ho; exact absurd ho hopen
    · intro _
      refine ⟨rfl, ?_, rfl⟩
      simp [Function.update]
    · intro i _
      rfl

/-- C4 (amended) on an open handler with `mFlushed = 65` (the flush bit and bit
0): after the call `mFlushed = 1`, slot 0 holds the meta-data event, slot 1 the
stamped regular event; a second call changes neither cursor nor `mFlushed`. -/
theorem C4_flush_complete_witness :
    (65 < 2 ^ 32 ∧ 65 &&& (1 <<< SENSOR_TYPE_PRESSURE) ≠ 0)
    ∧ (bmp180_get_data exTimestamp (some exOpen) (some exJunk) 65 [exShort]).cursor = 1
    ∧ (bmp180_get_data exTimestamp (some exOpen) (some exJunk) 65 [exShort]).buf.map
        (fun b => ((b 0).type, (b 0).version, (b 0).meta_data_sensor))
        = some ((SENSOR_TYPE_META_DATA : Int), META_DATA_VERSION, (SENSOR_TYPE_PRESSURE : Int))
    ∧ (bmp180_get_data exTimestamp (some exOpen) (some exJunk) 65 [exShort]).buf.map
        (fun b => ((b 1).version, (b 1).sensor, (b 1).type))
        = some (sizeof_sensors_event_t, exOpen.handle, exOpen.handle)
    ∧ (bmp180_get_data exTimestamp (some exOpen) (some exJunk) 65 [exShort]).mFlushed = 1
    ∧ (bmp180_get_data exTimestamp (some exOpen)
        (bmp180_get_data exTimestamp (some exOpen) (some exJunk) 65 [exShort]).buf
        (bmp180_get_data exTimestamp (some exOpen) (some exJunk) 65 [exShort]).mFlushed
        (bmp180_get_data exTimestamp (some exOpen) (some exJunk) 65 [exShort]).stream).cursor = 0
    ∧ (bmp180_get_data exTimestamp (some exOpen)
        (bmp180_get_data exTimestamp (some exOpen) (some exJunk) 65 [exShort]).buf
        (bmp180_get_data exTimestamp (some exOpen) (some exJunk) 65 [exShort]).mFlushed
        (bmp180_get_data exTimestamp (some exOpen) (some exJunk) 65 [exShort]).stream).mFlushed
        = (bmp180_get_data exTimestamp (some exOpen) (some exJunk) 65 [exShort]).mFlushed := by
  have hw := C4_flush_complete exTimestamp exOpen exJunk 65 [exShort] _ _
    (by decide) (by decide) rfl rfl
  refine ⟨⟨by decide, by decide⟩, hw.1, hw.2.1, hw.2.2.2.2.1 (by decide), ?_,
    hw.2.2.2.2.2.2.1, hw.2.2.2.2.2.2.2.1⟩
  rw [bmp180_get_data_open _ _ _ _ _ (by decide)]
  rfl

/-! ## Argument checks -/

/-- C5: every operation returns `-EINVAL` and changes nothing when a required
pointer is missing: all six with a null handler slot, `bmp180_get_data` with a
null event buffer (`mFlushed` and the pending reads are as before), and
`bmp180_activate`, `bmp180_deactivate`, `bmp180_set_delay` on a handler whose
private state is null (no call is issued, the handler record is as before). -/
theorem C5_null_arguments (h : smdk4x12_sensors_handlers) (device : Option Nat)
    (o : InitOracle) (w : World) (rc delay : Int) (ts : input_event → Int)
    (event : Option (Nat → sensors_event_t)) (m : Nat) (stream : List ReadResult) :
    bmp180_init none device o w = some (-EINVAL, none, w)
    ∧ bmp180_deinit none w = (-EINVAL, none, w)
    ∧ bmp180_activate none rc w = (-EINVAL, none, w)
    ∧ bmp180_deactivate none rc w = (-EINVAL, none, w)
    ∧ bmp180_set_delay none delay rc w = (-EINVAL, none, w)
    ∧ bmp180_get_data ts none event m stream
        = { rc := some (-EINVAL), mFlushed := m, buf := event, cursor := 0, stream := stream }
    ∧ bmp180_get_data ts (some h) none m stream
        = { rc := some (-EINVAL), mFlushed := m, buf := none, cursor := 0, stream := stream }
    ∧ bmp180_activate (some { h with data := none }) rc w
        = (-EINVAL, some { h with data := none }, w)
    ∧ bmp180_deactivate (some { h with data := none }) rc w
        = (-EINVAL, some { h with data := none }, w)
    ∧ bmp180_set_delay (some { h with data := none }) delay rc w
        = (-EINVAL, some { h with data := none }, w) := by
  refine ⟨rfl, rfl, rfl, rfl, rfl, ?_, ?_, rfl, rfl, rfl⟩
  · cases event <;> rfl
  · rfl

/-! ## Resources across `bmp180_init` and `bmp180_deinit` -/

/-- C6: with a successful allocation at `p`, for every slot `h` and each of the
three outcomes of `bmp180_init` (`input_open` fails; `sysfs_path_prefix` fails
with a negative result or an empty path; success), `bmp180_init` followed by
`bmp180_deinit` ends with `bmp180_deinit` returning 0, the slot at `poll_fd = -1`
and `data = NULL`, the open descriptors and live allocations as they were
before, and exactly one more `free(p)` in the call history; a descriptor that
was opened is closed exactly once.  In the two failure outcomes `bmp180_init`
itself returns -1 with the slot already reset and the allocation already
freed. -/
theorem C6_init_deinit_resources (h : smdk4x12_sensors_handlers) (device : Option Nat)
    (p : Nat) (fd rc : Int) (path : String) (w : World) :
    (fd < 0 →
      bmp180_init (some h) device
          { calloc_result := some p, input_open_result := fd, sysfs_rc := rc, sysfs_path := path } w
        = some (-1, some { h with poll_fd := -1, data := none },
            { open_fds := w.open_fds, live := w.live,
              trace := w.trace ++ [Call.calloc 1 PATH_MAX, Call.input_open "pressure_sensor",
                Call.free p] })
      ∧ init_then_deinit h device
          { calloc_result := some p, input_open_result := fd, sysfs_rc := rc, sysfs_path := path } w
        = some (-1, 0, some { h with poll_fd := -1, data := none },
            { open_fds := w.open_fds, live := w.live,
              trace := w.trace ++ [Call.calloc 1 PATH_MAX, Call.input_open "pressure_sensor",
                Call.free p] }))
    ∧ (0 ≤ fd → (rc < 0 ∨ path = "") →
      bmp180_init (some h) device
          { calloc_result := some p, input_open_result := fd, sysfs_rc := rc, sysfs_path := path } w
        = some (-1, some { h with poll_fd := -1, data := none },
            { open_fds := w.open_fds, live := w.live,
              trace := w.trace ++ [Call.calloc 1 PATH_MAX, Call.input_open "pressure_sensor",
                Call.sysfs_path_prefix_call "pressure_sensor", Call.free p, Call.close fd] })
      ∧ init_then_deinit h device
          { calloc_result := some p, input_open_result := fd, sysfs_rc := rc, sysfs_path := path } w
        = some (-1, 0, some { h with poll_fd := -1, data := none },
            { open_fds := w.open_fds, live := w.live,
              trace := w.trace ++ [Call.calloc 1 PATH_MAX, Call.input_open "pressure_sensor",
                Call.sysfs_path_prefix_call "pressure_sensor", Call.free p, Call.close fd] }))
    ∧ (0 ≤ fd → ¬ (rc < 0 ∨ path = "") →
      bmp180_init (some h) device
          { calloc_result := some p, input_open_result := fd, sysfs_rc := rc, sysfs_path := path } w
        = some (0,
            some { h with
              poll_fd := fd
              data := some { addr := p
                             val := { path_delay := (path ++ "/poll_delay").take (PATH_MAX - 1) } } },
            { open_fds := fd :: w.open_fds, live := p :: w.live,
              trace := w.trace ++ [Call.calloc 1 PATH_MAX, Call.input_open "pressure_sensor",
                Call.sysfs_path_prefix_call "pressure_sensor"] })
      ∧ init_then_deinit h device
          { calloc_result := some p, input_open_result := fd, sysfs_rc := rc, sysfs_path := path } w
        = some (0, 0, some { h with poll_fd := -1, data := none },
            { open_fds := w.open_fds, live := w.live,
              trace := w.trace ++ [Call.calloc 1 PATH_MAX, Call.input_open "pressure_sensor",
                Call.sysfs_path_prefix_call "pressure_sensor", Call.close fd, Call.free p] }))
    ∧ (init_then_deinit h device
          { calloc_result := some p, input_open_result := fd, sysfs_rc := rc, sysfs_path := path }
          w).map
        (fun r => (r.2.1, r.2.2.1.map (fun s => (s.poll_fd, s.data)), r.2.2.2.open_fds,
          r.2.2.2.live, r.2.2.2.trace.count (Call.free p),
          r.2.2.2.trace.count (Call.close fd)))
      = some (0, some (-1, none), w.open_fds, w.live, w.trace.count (Call.free p) + 1,
          w.trace.count (Call.close fd) + (if 0 ≤ fd then 1 else 0)) := by
  have hA : fd < 0 →
      bmp180_init (some h) device
          { calloc_result := some p, input_open_result := fd, sysfs_rc := rc, sysfs_path := path } w
        = some (-1, some { h with poll_fd := -1, data := none },
            { open_fds := w.open_fds, live := w.live,
              trace := w.trace ++ [Call.calloc 1 PATH_MAX, Call.input_open "pressure_sensor",
                Call.free p] }) := by
    intro hfd
    have hn : ¬ 0 ≤ fd := not_le.mpr hfd
    simp [bmp180_init, init_error, sys_calloc, sys_input_open, sys_free, hfd, hn]
  have hB : 0 ≤ fd → (rc < 0 ∨ path = "") →
      bmp180_init (some h) device
          { calloc_result := some p, input_open_result := fd, sysfs_rc := rc, sysfs_path := path } w
        = some (-1, some { h with poll_fd := -1, data := none },
            { open_fds := w.open_fds, live := w.live,
              trace := w.trace ++ [Call.calloc 1 PATH_MAX, Call.input_open "pressure_sensor",
                Call.sysfs_path_prefix_call "pressure_sensor", Call.free p, Call.close fd] }) := by
    intro hfd hs
    have hn : ¬ fd < 0 := not_lt.mpr hfd
    simp [bmp180_init, init_error, sys_calloc, sys_input_open, sys_free, sys_close, World.call,
      hfd, hn, hs]
  have hC : 0 ≤ fd → ¬ (rc < 0 ∨ path = "") →
      bmp180_init (some h) device
          { calloc_result := some p, input_open_result := fd, sysfs_rc := rc, sysfs_path := path } w
        = some (0,
            some { h with
              poll_fd := fd
              data := some { addr := p
                             val := { path_delay := (path ++ "/poll_delay").take (PATH_MAX - 1) } } },
            { open_fds := fd :: w.open_fds, live := p :: w.live,
              trace := w.trace ++ [Call.calloc 1 PATH_MAX, Call.input_open "pressure_sensor",
                Call.sysfs_path_prefix_call "pressure_sensor"] }) := by
    intro hfd hs
    have hn : ¬ fd < 0 := not_lt.mpr hfd
    simp [bmp180_init, sys_calloc, sys_input_open, World.call, hfd, hn, hs]
  have hD1 : fd < 0 → init_then_deinit h device
          { calloc_result := some p, input_open_result := fd, sysfs_rc := rc, sysfs_path := path } w
        = some (-1, 0, some { h with poll_fd := -1, data := none },
            { open_fds := w.open_fds, live := w.live,
              trace := w.trace ++ [Call.calloc 1 PATH_MAX, Call.input_open "pressure_sensor",
                Call.free p] }) := by
    intro hfd
    unfold init_then_deinit
    rw [hA hfd]
    simp [bmp180_deinit]
  have hD2 : 0 ≤ fd → (rc < 0 ∨ path = "") → init_then_deinit h device
          { calloc_result := some p, input_open_result := fd, sysfs_rc := rc, sysfs_path := path } w
        = some (-1, 0, some { h with poll_fd := -1, data := none },
            { open_fds := w.open_fds, live := w.live,
              trace := w.trace ++ [Call.calloc 1 PATH_MAX, Call.input_open "pressure_sensor",
                Call.sysfs_path_prefix_call "pressure_sensor", Call.free p, Call.close fd] }) := by
    intro hfd hs
    unfold init_then_deinit
    rw [hB hfd hs]
    simp [bmp180_deinit]
  have hD3 : 0 ≤ fd → ¬ (rc < 0 ∨ path = "") → init_then_deinit h device
          { calloc_result := some p, input_open_result := fd, sysfs_rc := rc, sysfs_path := path } w
        = some (0, 0, some { h with poll_fd := -1, data := none },
            { open_fds := w.open_fds, live := w.live,
              trace := w.trace ++ [Call.calloc 1 PATH_MAX, Call.input_open "pressure_sensor",
                Call.sysfs_path_prefix_call "pressure_sensor", Call.close fd, Call.free p] }) := by
    intro hfd hs
    unfold init_then_deinit
    rw [hC hfd hs]
    simp [bmp180_deinit, sys_close, sys_free, hfd]
  refine ⟨fun hfd => ⟨hA hfd, hD1 hfd⟩, fun hfd hs => ⟨hB hfd hs, hD2 hfd hs⟩,
    fun hfd hs => ⟨hC hfd hs, hD3 hfd hs⟩, ?_⟩
  by_cases hfd : fd < 0
  · have hn : ¬ 0 ≤ fd := not_le.mpr hfd
    rw [hD1 hfd]
    simp [List.count_append, List.count_cons, hn]
  · have hp : 0 ≤ fd := not_lt.mp hfd
    by_cases hs : rc < 0 ∨ path = ""
    · rw [hD2 hp hs]
      simp [List.count_append, List.count_cons, hp]
    · rw [hD3 hp hs]
      simp [List.count_append, List.count_cons, hp]

/-- C6 on the registration record as declared, allocation at 4096, in a world
with descriptors 0, 1, 2 open: `input_open` failing, `sysfs_path_prefix`
failing after descriptor 3 was opened, and success with descriptor 3. -/
theorem C6_init_deinit_resources_witness :
    init_then_deinit bmp180 none
        { calloc_result := some 4096, input_open_result := -1, sysfs_rc := 0, sysfs_path := "" }
        exWorld
      = some (-1, 0, some { bmp180 with poll_fd := -1, data := none },
          { open_fds := exWorld.open_fds, live := exWorld.live,
            trace := exWorld.trace ++ [Call.calloc 1 PATH_MAX,
              Call.input_open "pressure_sensor", Call.free 4096] })
    ∧ init_then_deinit bmp180 none
        { calloc_result := some 4096, input_open_result := 3, sysfs_rc := -1, sysfs_path := "" }
        exWorld
      = some (-1, 0, some { bmp180 with poll_fd := -1, data := none },
          { open_fds := exWorld.open_fds, live := exWorld.live,
            trace := exWorld.trace ++ [Call.calloc 1 PATH_MAX,
              Call.input_open "pressure_sensor", Call.sysfs_path_prefix_call "pressure_sensor",
              Call.free 4096, Call.close 3] })
    ∧ init_then_deinit bmp180 none
        { calloc_result := some 4096, input_open_result := 3, sysfs_rc := 0,
          sysfs_path := "/sys/class/input/input6" }
        exWorld
      = some (0, 0, some { bmp180 with poll_fd := -1, data := none },
          { open_fds := exWorld.open_fds, live := exWorld.live,
            trace := exWorld.trace ++ [Call.calloc 1 PATH_MAX,
              Call.input_open "pressure_sensor", Call.sysfs_path_prefix_call "pressure_sensor",
              Call.close 3, Call.free 4096] }) :=
  ⟨((C6_init_deinit_resources bmp180 none 4096 (-1) 0 "" exWorld).1 (by decide)).2,
    ((C6_init_deinit_resources bmp180 none 4096 3 (-1) "" exWorld).2.1 (by decide)
      (Or.inl (by decide))).2,
    ((C6_init_deinit_resources bmp180 none 4096 3 0 "/sys/class/input/input6" exWorld).2.2.1
      (by decide) (by decide)).2⟩

/-! ## Activation, deactivation and the sampling interval -/

/-- C7: on a handler with private state, a negative result of
`ssp_sensor_enable(PRESSURE_SENSOR)` makes `bmp180_activate` return -1 with the
handler record unchanged and no thread created; a non-negative result makes it
return 0 with `activated = 1` and exactly one detached `pthread_create` of
`set_initial_state_fn`.  In both cases the enable call is issued once. -/
theorem C7_activate (h : smdk4x12_sensors_handlers) (d : DataPtr) (enable_rc : Int) (w : World)
    (hd : h.data = some d) :
    (enable_rc < 0 →
      bmp180_activate (some h) enable_rc w
        = (-1, some h,
            { w with trace := w.trace ++ [Call.ssp_sensor_enable ssp_sensor.PRESSURE_SENSOR] }))
    ∧ (0 ≤ enable_rc →
      bmp180_activate (some h) enable_rc w
        = (0, some { h with activated := 1 },
            { w with trace := w.trace ++ [Call.ssp_sensor_enable ssp_sensor.PRESSURE_SENSOR,
                Call.pthread_create_detached start_routine.set_initial_state_fn] }))
    ∧ (bmp180_activate (some h) enable_rc w).2.2.trace.count
        (Call.pthread_create_detached start_routine.set_initial_state_fn)
      = w.trace.count (Call.pthread_create_detached start_routine.set_initial_state_fn)
        + (if enable_rc < 0 then 0 else 1) := by
  have h1 : enable_rc < 0 →
      bmp180_activate (some h) enable_rc w
        = (-1, some h,
            { w with trace := w.trace ++ [Call.ssp_sensor_enable ssp_sensor.PRESSURE_SENSOR] }) := by
    intro hneg
    simp [bmp180_activate, hd, hneg, World.call]
  have h2 : 0 ≤ enable_rc →
      bmp180_activate (some h) enable_rc w
        = (0, some { h with activated := 1 },
            { w with trace := w.trace ++ [Call.ssp_sensor_enable ssp_sensor.PRESSURE_SENSOR,
                Call.pthread_create_detached start_routine.set_initial_state_fn] }) := by
    intro hpos
    have hn : ¬ enable_rc < 0 := not_lt.mpr hpos
    simp [bmp180_activate, hd, hn, World.call, set_initial_state_thread]
  refine ⟨h1, h2, ?_⟩
  by_cases hneg : enable_rc < 0
  · rw [h1 hneg]
    simp [List.count_append, List.count_cons, hneg]
  · rw [h2 (not_lt.mp hneg)]
    simp [List.count_append, List.count_cons, hneg]

/-- C7 on the handler with private state present: enable returning -5, then
enable returning 0. -/
theorem C7_activate_witness :
    exReady.data = some { addr := 4096,
                          val := { path_delay := "/sys/class/sensors/ssp/poll_delay" } }
    ∧ bmp180_activate (some exReady) (-5) exWorld
        = (-1, some exReady,
            { exWorld with
              trace := exWorld.trace ++ [Call.ssp_sensor_enable ssp_sensor.PRESSURE_SENSOR] })
    ∧ bmp180_activate (some exReady) 0 exWorld
        = (0, some { exReady with activated := 1 },
            { exWorld with
              trace := exWorld.trace ++ [Call.ssp_sensor_enable ssp_sensor.PRESSURE_SENSOR,
                Call.pthread_create_detached start_routine.set_initial_state_fn] }) :=
  ⟨rfl, (C7_activate exReady _ (-5) exWorld rfl).1 (by decide),
    (C7_activate exReady _ 0 exWorld rfl).2.1 (by decide)⟩

/-- C8: on a handler with private state and any prior `activated` value, a
non-negative result of `ssp_sensor_disable(PRESSURE_SENSOR)` makes
`bmp180_deactivate` return 0 and leave `activated = 1`; a negative result makes
it return -1 with the handler record unchanged.  In particular a successful
activate followed by a successful deactivate ends with `activated = 1`. -/
theorem C8_deactivate_sets_flag (h : smdk4x12_sensors_handlers) (d : DataPtr)
    (enable_rc disable_rc : Int) (w : World) (hd : h.data = some d) :
    (0 ≤ disable_rc →
      bmp180_deactivate (some h) disable_rc w
        = (0, some { h with activated := 1 },
            { w with trace := w.trace ++ [Call.ssp_sensor_disable ssp_sensor.PRESSURE_SENSOR] }))
    ∧ (disable_rc < 0 →
      bmp180_deactivate (some h) disable_rc w
        = (-1, some h,
            { w with trace := w.trace ++ [Call.ssp_sensor_disable ssp_sensor.PRESSURE_SENSOR] }))
    ∧ (0 ≤ enable_rc → 0 ≤ disable_rc →
      (bmp180_deactivate (bmp180_activate (some h) enable_rc w).2.1 disable_rc
          (bmp180_activate (some h) enable_rc w).2.2).1 = 0
      ∧ (bmp180_deactivate (bmp180_activate (some h) enable_rc w).2.1 disable_rc
          (bmp180_activate (some h) enable_rc w).2.2).2.1
        = some { h with activated := 1 }) := by
  refine ⟨?_, ?_, ?_⟩
  · intro hpos
    have hn : ¬ disable_rc < 0 := not_lt.mpr hpos
    simp [bmp180_deactivate, hd, hn, World.call]
  · intro hneg
    simp [bmp180_deactivate, hd, hneg, World.call]
  · intro he hdis
    have hn1 : ¬ enable_rc < 0 := not_lt.mpr he
    have hn2 : ¬ disable_rc < 0 := not_lt.mpr hdis
    simp [bmp180_activate, bmp180_deactivate, hd, hn1, hn2]

/-- C8 on a handler with `activated = 0`: a successful deactivate sets the flag
to 1, and so does activate followed by deactivate. -/
theorem C8_deactivate_sets_flag_witness :
    exReady.activated = 0
    ∧ bmp180_deactivate (some exReady) 0 exWorld
        = (0, some { exReady with activated := 1 },
            { exWorld with
              trace := exWorld.trace ++ [Call.ssp_sensor_disable ssp_sensor.PRESSURE_SENSOR] })
    ∧ bmp180_deactivate (some exReady) (-5) exWorld
        = (-1, some exReady,
            { exWorld with
              trace := exWorld.trace ++ [Call.ssp_sensor_disable ssp_sensor.PRESSURE_SENSOR] })
    ∧ ((bmp180_deactivate (bmp180_activate (some exReady) 0 exWorld).2.1 0
          (bmp180_activate (some exReady) 0 exWorld).2.2).1 = 0
      ∧ (bmp180_deactivate (bmp180_activate (some exReady) 0 exWorld).2.1 0
          (bmp180_activate (some exReady) 0 exWorld).2.2).2.1
        = some { exReady with activated := 1 }) :=
  ⟨rfl, (C8_deactivate_sets_flag exReady _ 0 0 exWorld rfl).1 (by decide),
    (C8_deactivate_sets_flag exReady _ 0 (-5) exWorld rfl).2.1 (by decide),
    (C8_deactivate_sets_flag exReady _ 0 0 exWorld rfl).2.2 (by decide) (by decide)⟩

/-- C9: `bmp180_set_delay` depends neither on its interval argument nor on the
private state: for two handlers with private state present, two delay values
and the same result of `write_cmd`, the return value and the world left behind
are the same, the one request issued is the write of `"66667000"` (length 9) to
`/sys/devices/virtual/input/input6/pressure_poll_delay`, each handler record is
unchanged, and the result is 0 for a non-negative write result and -1 for a
negative one. -/
theorem C9_set_delay_fixed (h1 h2 : smdk4x12_sensors_handlers) (d1 d2 : DataPtr)
    (delay1 delay2 write_rc : Int) (w : World)
    (hd1 : h1.data = some d1) (hd2 : h2.data = some d2) :
    (bmp180_set_delay (some h1) delay1 write_rc w).1
      = (bmp180_set_delay (some h2) delay2 write_rc w).1
    ∧ (bmp180_set_delay (some h1) delay1 write_rc w).2.2
      = (bmp180_set_delay (some h2) delay2 write_rc w).2.2
    ∧ (bmp180_set_delay (some h1) delay1 write_rc w).2.2
      = { w with trace := w.trace ++ [Call.write_cmd
            "/sys/devices/virtual/input/input6/pressure_poll_delay" "66667000" 9] }
    ∧ (bmp180_set_delay (some h1) delay1 write_rc w).2.1 = some h1
    ∧ (bmp180_set_delay (some h1) delay1 write_rc w).1 = (if write_rc < 0 then -1 else 0) := by
  by_cases hneg : write_rc < 0
  · simp [bmp180_set_delay, hd1, hd2, hneg, World.call]
  · simp [bmp180_set_delay, hd1, hd2, hneg, World.call]

/-- C9 on two handlers with different delay paths and the delays 100000 and
200000000. -/
theorem C9_set_delay_fixed_witness :
    (bmp180_set_delay (some exReady) 100000 0 exWorld).1
      = (bmp180_set_delay (some exOpen) 200000000 0 exWorld).1
    ∧ (bmp180_set_delay (some exReady) 100000 0 exWorld).2.2
      = (bmp180_set_delay (some exOpen) 200000000 0 exWorld).2.2
    ∧ (bmp180_set_delay (some exReady) 100000 0 exWorld).2.2
      = { exWorld with trace := exWorld.trace ++ [Call.write_cmd
            "/sys/devices/virtual/input/input6/pressure_poll_delay" "66667000" 9] }
    ∧ (bmp180_set_delay (some exReady) 100000 0 exWorld).2.1 = some exReady
    ∧ (bmp180_set_delay (some exReady) 100000 0 exWorld).1 = (if (0 : Int) < 0 then -1 else 0) :=
  C9_set_delay_fixed exReady exOpen _ _ 100000 200000000 0 exWorld rfl rfl

end Bmp180
